import Mathlib

set_option maxRecDepth 100000

/-!
Verification development for the UniLife Streamlit chatbot
(`src/streamlit_university_chatbot.py`).

The Python source is shallowly embedded below:
* pure helpers (`get_rule_based_answer`) become Lean functions over
  `String` / `List Char`;
* the effectful Gemini call path (`call_gemini`) becomes a function of an
  explicit ambient state: the process environment / secret store (`Env`)
  and a per-call record of how every optional SDK import, client
  construction and provider invocation would turn out (`World`);
* the Streamlit session callback (`handle_ask`) becomes a state
  transformer on `SessionState`.

Python string primitives (`str.lower`, `str.split`, `str.strip`,
`x in s`, truthiness of `str` / `None`) are embedded for the ASCII
fragment, which covers every string occurring in the knowledge base and
in the concrete inputs considered here.
-/

/-- ASCII fragment of Python `str.lower` on a single character. -/
def pyLowerChar (c : Char) : Char :=
  if 65 ≤ c.toNat ∧ c.toNat ≤ 90 then Char.ofNat (c.toNat + 32) else c

/-- Python `str.lower`, character-wise (ASCII fragment). -/
def pyLower (s : List Char) : List Char :=
  s.map pyLowerChar

/-- Does the second list start with the first one?  Helper for Python
substring containment. -/
def chStarts : List Char → List Char → Bool
  | [], _ => true
  | _ :: _, [] => false
  | a :: as, b :: bs => a == b && chStarts as bs

/-- Python `needle in hay` on strings: substring containment. -/
def chContains (needle : List Char) : List Char → Bool
  | [] => needle.isEmpty
  | b :: bs => chStarts needle (b :: bs) || chContains needle bs

/-- Is `c` one of the ASCII whitespace characters Python splits on. -/
def pyIsSpace (c : Char) : Bool :=
  c == ' ' || c == '\t' || c == '\n' || c == '\r'

/-- Worker for `pySplit`: accumulates the current (reversed) token. -/
def pySplitAux : List Char → List Char → List (List Char)
  | [], acc => if acc.isEmpty then [] else [acc.reverse]
  | c :: cs, acc =>
    if pyIsSpace c then
      if acc.isEmpty then pySplitAux cs [] else acc.reverse :: pySplitAux cs []
    else pySplitAux cs (c :: acc)

/-- Python `str.split()` with no argument: split on runs of whitespace,
discarding empty tokens (ASCII whitespace fragment). -/
def pySplit (s : List Char) : List (List Char) :=
  pySplitAux s []

/-- One knowledge-base entry, source dict `{"q": ..., "a": ...}`. -/
structure KBEntry where
  q : String
  a : String
deriving DecidableEq, Repr

/-- Source `CUSTOM_KB[0]`. -/
def kb0 : KBEntry :=
  ⟨"Where is the library?",
   "The main university library is located in Building A, Level 2. Opening hours: Mon-Fri 8:30am - 10:00pm, Sat 9:00am - 5:00pm. For borrowing & returns use your student card at the front desk or the self-checkout kiosks."⟩

/-- Source `CUSTOM_KB[1]`. -/
def kb1 : KBEntry :=
  ⟨"How do I register for exams?",
   "Exam registration is done via the student portal under \x27Academic > Exam Registration\x27. Make sure you\x27ve paid all necessary fees and completed course enrollment before the registration deadline. Contact the Exams Office if you face issues."⟩

/-- Source `CUSTOM_KB[2]`. -/
def kb2 : KBEntry :=
  ⟨"How can I reset my student portal password?",
   "Reset your password at the portal\x27s \x27Forgot Password\x27 link. If that fails, submit a help ticket to IT Support with your student ID and a photo ID for verification."⟩

/-- Source `CUSTOM_KB[3]`.  The answer text carries the source file's
mojibake bytes verbatim. -/
def kb3 : KBEntry :=
  ⟨"Where can I apply for scholarships?",
   "Visit the Scholarships page under Student Services for current openings. Some scholarships require faculty nomination â€” check eligibility carefully and prepare transcripts and recommendation letters."⟩

/-- Source `CUSTOM_KB[4]`. -/
def kb4 : KBEntry :=
  ⟨"What are the library\x27s rules for group study rooms?",
   "Group study rooms can be booked online via the library booking system for up to 2 hours at a time. Keep noise to a minimum and leave the room tidy. No food or drinks allowed in certain rooms â€” check room details when booking."⟩

/-- Source `CUSTOM_KB`: the ordered knowledge base. -/
def CUSTOM_KB : List KBEntry :=
  [kb0, kb1, kb2, kb3, kb4]

/-- Source `FAQ_KEYWORDS`: a Python dict, iterated in insertion order, so
embedded as an ordered association list; the values are
`CUSTOM_KB[i]["a"]` as in the source. -/
def FAQ_KEYWORDS : List (String × String) :=
  [("library", kb0.a),
   ("exam", kb1.a),
   ("register", kb1.a),
   ("password", kb2.a),
   ("scholarship", kb3.a),
   ("group study", kb4.a),
   ("study room", kb4.a)]

/-- Source line 58 loop condition:
`entry["q"].lower() in q or any(word in q for word in entry["q"].lower().split() if len(word) > 3)`. -/
def entryMatches (q : List Char) (e : KBEntry) : Bool :=
  chContains (pyLower e.q.data) q
    || (pySplit (pyLower e.q.data)).any (fun w => decide (3 < w.length) && chContains w q)

/-- Source line 63 loop condition: `k in q` for a keyword/answer pair. -/
def kwMatches (q : List Char) (ka : String × String) : Bool :=
  chContains ka.1.data q

/-- Source lines 66-68: the fixed fallback string. -/
def FALLBACK : String :=
  "I don\x27t have a precise answer in my FAQ. Try rephrasing the question or provide a Gemini API key in the sidebar to enable AI-powered answers."

/-- Source `get_rule_based_answer` (lines 54-68): lower-case the question,
return the first knowledge-base entry matching per `entryMatches`, else
the first keyword of `FAQ_KEYWORDS` contained in the question, else the
fixed fallback string. -/
def get_rule_based_answer (question : String) : String :=
  let q := pyLower question.data
  match CUSTOM_KB.find? (entryMatches q) with
  | some e => e.a
  | none =>
    match FAQ_KEYWORDS.find? (kwMatches q) with
    | some ka => ka.2
    | none => FALLBACK

/-- Ambient deployment state read (or, for the secret-store fields,
readable but never read) by `call_gemini`:
* `secrets_gemini` / `secrets_google` model Streamlit\x27s secret store
  under the keys `GEMINI_API_KEY` / `GOOGLE_API_KEY`; the source contains
  no `st.secrets` access at all, so no definition below consults them;
* `env_gemini` / `env_google` model `os.getenv("GEMINI_API_KEY")` and
  `os.getenv("GOOGLE_API_KEY")` (`none` = variable unset). -/
structure Env where
  secrets_gemini : Option String
  secrets_google : Option String
  env_gemini : Option String
  env_google : Option String

/-- Python `a or b` on optional strings: `a` when it is truthy
(present and non-empty), else `b`. -/
def pyOr (a b : Option String) : Option String :=
  match a with
  | some s => if s = "" then b else some s
  | none => b

/-- Python truthiness of an optional string: `None` and `""` are falsy. -/
def truthy : Option String → Bool
  | some s => if s = "" then false else true
  | none => false

/-- Source line 87:
`effective_key = api_key or os.getenv("GEMINI_API_KEY") or os.getenv("GOOGLE_API_KEY")`. -/
def effective_key (api_key : Option String) (env : Env) : Option String :=
  pyOr api_key (pyOr env.env_gemini env.env_google)

/-- Shape of the response object returned by
`client.models.generate_content` in import pattern 1, as discriminated by
the extraction code at source lines 112-126. -/
inductive RespShape where
  /-- `hasattr(resp, "text")`: the call returns `str(resp.text)`. -/
  | hasText (t : String)
  /-- `hasattr(resp, "output")` with a truthy `candidates` attribute: the
  source returns the literal string shown in `extractP1` (the join
  expression at line 123 is quoted in the source, a slip kept here). -/
  | outputWithCandidates (strRepr : String)
  /-- `hasattr(resp, "output")` but falsy / faulting `candidates`: falls
  through to `str(resp)`. -/
  | outputNoCandidates (strRepr : String)
  /-- neither attribute: `str(resp)`. -/
  | plain (strRepr : String)

/-- Source lines 112-126: extraction of the textual payload from a
pattern-1 response. -/
def extractP1 : RespShape → String
  | RespShape.hasText t => t
  | RespShape.outputWithCandidates _ => ".join(texts) if texts else str(resp)"
  | RespShape.outputNoCandidates r => r
  | RespShape.plain r => r

/-- Per-call outcome record for import pattern 1
(`from google import genai`, source lines 92-131), present only
when that import itself succeeds. -/
structure P1World where
  /-- some construction strategy yielded a client: `genai.Client()`
  directly, or `genai.configure(api_key=...)` followed by
  `genai.Client()` (lines 96-105).  `false` leaves `client = None` and
  control falls through to pattern 2. -/
  clientOk : Bool
  /-- outcome of `client.models.generate_content(model=model,
  contents=question)` (line 110): either a raised exception\x27s message or
  a response shape.  Note the source passes no temperature here. -/
  gen : Except String RespShape

/-- Source lines 92-131 as a partial result: `some ans` when pattern 1
returns from `call_gemini`, `none` when control falls through (import
failed, or every client construction failed). -/
def tryP1 : Option P1World → Option String
  | none => none
  | some w =>
    if w.clientOk then
      some (match w.gen with
        | Except.error e =>
          "(Gemini request failed - genai.Client().models.generate_content) " ++ e
        | Except.ok shape => extractP1 shape)
    else none

/-- Shape of the value returned by `genai2.generate_text`, as
discriminated by source lines 148-157. -/
inductive GTResp where
  /-- `isinstance(resp, str)`: returned as is. -/
  | isStr (s : String)
  /-- `hasattr(resp, "text")`: `str(resp.text)`. -/
  | hasText (t : String)
  /-- a dict: `str(resp.get("text") or resp)`; `textField = none` models
  a missing key, `some ""` a falsy value, both falling back to
  `str(resp)`. -/
  | isDict (textField : Option String) (strRepr : String)
  /-- anything else: `str(resp)`. -/
  | plain (strRepr : String)

/-- Source lines 148-157: textual extraction from a `generate_text`
response. -/
def extractGT : GTResp → String
  | GTResp.isStr s => s
  | GTResp.hasText t => t
  | GTResp.isDict tf r =>
    (match tf with
     | some t => if t = "" then r else t
     | none => r)
  | GTResp.plain r => r

/-- Shape of the value returned by `genai2.chat.create`, as discriminated
by source lines 160-165. -/
inductive ChatResp where
  /-- `hasattr(chat_resp, "content")`: `str(chat_resp.content)`. -/
  | hasContent (c : String)
  /-- a dict: `str(chat_resp.get("output") or chat_resp)`. -/
  | isDict (outputField : Option String) (strRepr : String)
  /-- anything else: `str(chat_resp)`. -/
  | plain (strRepr : String)

/-- Source lines 160-165: textual extraction from a `chat.create`
response. -/
def extractChat : ChatResp → String
  | ChatResp.hasContent c => c
  | ChatResp.isDict of r =>
    (match of with
     | some t => if t = "" then r else t
     | none => r)
  | ChatResp.plain r => r

/-- Which call attribute pattern 2\x27s module exposes (source lines
145-165).  The provider\x27s behaviour is modelled as a function of the
temperature value actually passed in the call, the request datum the
claims inspect; question and model are fixed by the per-call world. -/
inductive P2Call where
  /-- `hasattr(genai2, "generate_text")`: the source calls
  `genai2.generate_text(model=model, input=question, temperature=temperature)`. -/
  | hasGenerateText (run : Rat → Except String GTResp)
  /-- `hasattr(genai2, "chat")` and `hasattr(genai2.chat, "create")`: the
  source calls `genai2.chat.create(..., temperature=temperature)`. -/
  | hasChatCreate (run : Rat → Except String ChatResp)
  /-- neither attribute: the `try` body ends without returning and
  control falls through to the final message. -/
  | neither

/-- Per-call outcome record for import pattern 2
(`import google.generativeai as genai2`, source lines 134-169), present
only when the import succeeds.  The `configure` call at lines 137-142 has
its exceptions swallowed and no observable effect here. -/
structure P2World where
  call : P2Call

/-- Source lines 134-169 as a partial result: `some ans` when pattern 2
returns from `call_gemini`, `none` when control falls through. -/
def tryP2 (temperature : Rat) : Option P2World → Option String
  | none => none
  | some w =>
    match w.call with
    | P2Call.hasGenerateText run =>
      some (match run temperature with
        | Except.error e => "(Gemini request failed - google.generativeai) " ++ e
        | Except.ok r => extractGT r)
    | P2Call.hasChatCreate run =>
      some (match run temperature with
        | Except.error e => "(Gemini request failed - google.generativeai) " ++ e
        | Except.ok r => extractChat r)
    | P2Call.neither => none

/-- Per-call ambient world for the adapter chain: `none` in a field means
the corresponding import raises. -/
structure World where
  p1 : Option P1World
  p2 : Option P2World

/-- Source lines 88-89: the fixed "not configured" message. -/
def notConfiguredMsg : String :=
  "(Gemini not configured) No Gemini API key found. Provide GEMINI_API_KEY/GOOGLE_API_KEY env var or paste key in the sidebar."

/-- Source lines 171-174: the fixed message returned when no usable
client package was found. -/
def clientNotFoundMsg : String :=
  "(Gemini client not found) Could not find a supported Gemini/GenAI Python package. Install `google-generativeai` (or another official Gen AI SDK) and set GEMINI_API_KEY/GOOGLE_API_KEY."

/-- Source `call_gemini` (lines 73-174): resolve the effective key, bail
out with the fixed message when it is falsy, else run import pattern 1,
then pattern 2, then return the fixed "client not found" message. -/
def call_gemini (question : String) (api_key : Option String) (model : String)
    (temperature : Rat) (env : Env) (w : World) : String :=
  let ek := effective_key api_key env
  if !(truthy ek) then notConfiguredMsg
  else
    match tryP1 w.p1 with
    | some ans => ans
    | none =>
      match tryP2 temperature w.p2 with
      | some ans => ans
      | none => clientNotFoundMsg

/-- One conversation turn, source dict `{"user": ..., "bot": ...}`. -/
structure Turn where
  user : String
  bot : String
deriving DecidableEq, Repr

/-- The slice of `st.session_state` the callback reads and writes. -/
structure SessionState where
  history : List Turn
  user_input : String
deriving DecidableEq, Repr

/-- Leading-whitespace stripper over characters, helper for `pyStrip`. -/
def dropLeadingWs : List Char → List Char
  | [] => []
  | c :: cs => if pyIsSpace c then dropLeadingWs cs else c :: cs

/-- Python `str.strip()` with no argument (ASCII whitespace fragment). -/
def pyStrip (s : String) : String :=
  ⟨(dropLeadingWs (dropLeadingWs s.data).reverse).reverse⟩

/-- Python `s or None` for a string, as in `api_key=api_key_value or None`
(source line 223). -/
def pyOrNone (s : String) : Option String :=
  if s = "" then none else some s

/-- Python `s or d` for strings, as in `model_value or "gemini-2.5-flash"`
(source line 223). -/
def pyStrDefault (s d : String) : String :=
  if s = "" then d else s

/-- Source `handle_ask` (lines 215-232) as a transformer of the session
state: strip the input, do nothing when it is empty, else compute the
answer (provider or rule-based path), append the turn to the history and
clear the input widget. -/
def handle_ask (mode_value api_key_value model_value : String)
    (temperature_value : Rat) (env : Env) (w : World)
    (s : SessionState) : SessionState :=
  let user_q := pyStrip s.user_input
  if user_q = "" then s
  else
    let answer :=
      if mode_value = "Gemini (Google)" then
        call_gemini user_q (pyOrNone api_key_value)
          (pyStrDefault model_value "gemini-2.5-flash") temperature_value env w
      else
        get_rule_based_answer user_q
    ⟨s.history ++ [⟨user_q, answer⟩], ""⟩

/-- C1, counterexample: the claim "every entry\x27s own question returns
that entry\x27s answer" fails at the scholarships entry `kb3`: its question
"Where can I apply for scholarships?" contains the token "where" (length
5 > 3) of the first entry\x27s question, so the matcher returns the library
answer `kb0.a`, which differs from `kb3.a`. -/
theorem C1_cex :
    get_rule_based_answer kb3.q = kb0.a ∧ kb0.a ≠ kb3.a := by
  constructor
  · decide
  · decide

/-- C1 (amended): entries 0, 1, 2 and 4 of `CUSTOM_KB` each return their
own answer when their own question text is submitted, but entry 3 (the
scholarships entry) returns entry 0\x27s answer, because the first matching
entry wins and entry 0\x27s token "where" occurs in entry 3\x27s question. -/
theorem C1_amended :
    get_rule_based_answer kb0.q = kb0.a
  ∧ get_rule_based_answer kb1.q = kb1.a
  ∧ get_rule_based_answer kb2.q = kb2.a
  ∧ get_rule_based_answer kb3.q = kb0.a
  ∧ get_rule_based_answer kb4.q = kb4.a := by
  refine ⟨?_, ?_, ?_, ?_, ?_⟩
  · decide
  · decide
  · decide
  · decide
  · decide

/-- C7 (confirmed): a question matching no knowledge-base entry (neither
by full lower-cased question substring nor by a token longer than 3
characters, i.e. `entryMatches` rejects every entry) and containing no
keyword of the index returns the fixed fallback string; in particular
"asdkjasdkj nonsense" does, and the fallback string is not empty.  The
matcher is a total Lean function, so it cannot crash. -/
theorem C7_thm :
    (∀ question : String,
      CUSTOM_KB.find? (entryMatches (pyLower question.data)) = none →
      FAQ_KEYWORDS.find? (kwMatches (pyLower question.data)) = none →
      get_rule_based_answer question = FALLBACK)
  ∧ get_rule_based_answer "asdkjasdkj nonsense" = FALLBACK
  ∧ FALLBACK ≠ "" := by
  refine ⟨?_, by decide, by decide⟩
  intro question h1 h2
  simp only [get_rule_based_answer, h1, h2]

/-- C7, witness: the general part of `C7_thm` applied at a concrete
no-match question. -/
theorem C7_witness :
    get_rule_based_answer "qwertyuiop zxcvbnm" = FALLBACK :=
  C7_thm.1 "qwertyuiop zxcvbnm" (by decide) (by decide)

/-- C8 (confirmed): the keyword index is consulted only after no
knowledge-base entry matched — whenever `find?` over `CUSTOM_KB` is
`none` and the first keyword hit (in index insertion order) is `(k, a)`,
the matcher returns `a`; in particular "I lost my password, help"
returns the password-reset answer `kb2.a`. -/
theorem C8_thm :
    (∀ (question k a : String),
      CUSTOM_KB.find? (entryMatches (pyLower question.data)) = none →
      FAQ_KEYWORDS.find? (kwMatches (pyLower question.data)) = some (k, a) →
      get_rule_based_answer question = a)
  ∧ get_rule_based_answer "I lost my password, help" = kb2.a := by
  refine ⟨?_, by decide⟩
  intro question k a h1 h2
  simp only [get_rule_based_answer, h1, h2]

/-- C8, witness: the general part of `C8_thm` applied at the password
question, whose first keyword hit is `("password", kb2.a)`. -/
theorem C8_witness :
    get_rule_based_answer "I lost my password, help" = kb2.a :=
  C8_thm.1 "I lost my password, help" "password" kb2.a (by decide) (by decide)

/-- C10 (confirmed): for every input question the rule-based matcher
returns one of the five knowledge-base answers or the fixed fallback
string — every keyword-index value is itself a knowledge-base answer, so
no other string is reachable. -/
theorem C10_thm (question : String) :
    get_rule_based_answer question
      ∈ [kb0.a, kb1.a, kb2.a, kb3.a, kb4.a, FALLBACK] := by
  simp only [get_rule_based_answer]
  cases h1 : CUSTOM_KB.find? (entryMatches (pyLower question.data)) with
  | some e =>
    have he : e ∈ CUSTOM_KB := List.mem_of_find?_eq_some h1
    simp only [CUSTOM_KB, List.mem_cons, List.not_mem_nil, or_false] at he
    rcases he with rfl | rfl | rfl | rfl | rfl <;> simp
  | none =>
    cases h2 : FAQ_KEYWORDS.find? (kwMatches (pyLower question.data)) with
    | some ka =>
      have hk : ka ∈ FAQ_KEYWORDS := List.mem_of_find?_eq_some h2
      simp only [FAQ_KEYWORDS, List.mem_cons, List.not_mem_nil, or_false] at hk
      rcases hk with rfl | rfl | rfl | rfl | rfl | rfl | rfl <;> simp
    | none => simp

/-- C2, counterexample: the claim puts the secret store ahead of the
environment, but the source never consults a secret store — with a
secret-store value "SECRET" under GEMINI_API_KEY and an environment
value "ENVVAL", resolution (line 87) yields the environment value, not
the secret-store value. -/
theorem C2_cex :
    effective_key none ⟨some "SECRET", none, some "ENVVAL", none⟩ = some "ENVVAL"
  ∧ (some "ENVVAL" : Option String) ≠ some "SECRET" := by
  constructor
  · decide
  · decide

/-- C2 (amended): credential resolution consults only the explicit
argument and the two environment variables, in the order explicit
credential first, then GEMINI_API_KEY, then GOOGLE_API_KEY; it is
entirely independent of the secret store.  A truthy explicit value wins
over everything; otherwise a truthy GEMINI_API_KEY environment value
wins; otherwise the GOOGLE_API_KEY environment value (possibly absent)
is used, so with nothing set anywhere the credential is absent. -/
theorem C2_amended :
    (∀ (env : Env) (k : Option String), truthy k = true →
      effective_key k env = k)
  ∧ (∀ (env : Env) (k : Option String), truthy k = false →
      truthy env.env_gemini = true → effective_key k env = env.env_gemini)
  ∧ (∀ (env : Env) (k : Option String), truthy k = false →
      truthy env.env_gemini = false → effective_key k env = env.env_google)
  ∧ (∀ (a b : Env) (k : Option String), a.env_gemini = b.env_gemini →
      a.env_google = b.env_google → effective_key k a = effective_key k b) := by
  refine ⟨?_, ?_, ?_, ?_⟩
  · intro env k hk
    cases k with
    | none => simp [truthy] at hk
    | some s =>
      by_cases hs : s = "" <;> simp [truthy, hs] at hk ⊢ <;>
        simp [effective_key, pyOr, hs]
  · intro env k hk hg
    have hek : effective_key k env = pyOr env.env_gemini env.env_google := by
      cases k with
      | none => simp [effective_key, pyOr]
      | some s =>
        by_cases hs : s = "" <;> simp [truthy, hs] at hk <;>
          simp [effective_key, pyOr, hs]
    rw [hek]
    cases hG : env.env_gemini with
    | none => rw [hG] at hg; simp [truthy] at hg
    | some g =>
      rw [hG] at hg
      by_cases hgs : g = "" <;> simp [truthy, hgs] at hg ⊢ <;> simp [pyOr, hgs]
  · intro env k hk hg
    have hek : effective_key k env = pyOr env.env_gemini env.env_google := by
      cases k with
      | none => simp [effective_key, pyOr]
      | some s =>
        by_cases hs : s = "" <;> simp [truthy, hs] at hk <;>
          simp [effective_key, pyOr, hs]
    rw [hek]
    cases hG : env.env_gemini with
    | none => simp [pyOr]
    | some g =>
      rw [hG] at hg
      by_cases hgs : g = "" <;> simp [truthy, hgs] at hg ⊢ <;> simp [pyOr, hgs]
  · intro a b k h1 h2
    simp [effective_key, h1, h2]

/-- C2, witness: part 1 of `C2_amended` applied at a concrete
environment with an explicit key. -/
theorem C2_amended_witness :
    effective_key (some "k") ⟨none, none, some "e", none⟩ = some "k" :=
  C2_amended.1 ⟨none, none, some "e", none⟩ (some "k") (by decide)

/-- C4, counterexample: no normalization happens — a value wrapped in
double quotes is used verbatim (quotes kept), and a whitespace-only
value is truthy, hence treated as a present credential rather than
absent. -/
theorem C4_cex :
    effective_key (some "\"abc123\"") ⟨none, none, none, none⟩ = some "\"abc123\""
  ∧ (some "\"abc123\"" : Option String) ≠ some "abc123"
  ∧ effective_key (some "   ") ⟨none, none, none, none⟩ = some "   "
  ∧ truthy (effective_key (some "   ") ⟨none, none, none, none⟩) = true := by
  refine ⟨?_, ?_, ?_, ?_⟩
  · decide
  · decide
  · decide
  · decide

/-- C4 (amended): a resolved credential value is used verbatim — no
whitespace trimming and no quote stripping occur; the only value treated
as absent is the empty string (Python falsiness), so an explicit empty
string defers to the environment exactly as an absent argument does. -/
theorem C4_amended :
    (∀ (env : Env) (s : String), s ≠ "" → effective_key (some s) env = some s)
  ∧ (∀ env : Env, effective_key (some "") env = effective_key none env) := by
  constructor
  · intro env s hs
    simp [effective_key, pyOr, hs]
  · intro env
    simp [effective_key, pyOr]

/-- C4, witness: part 1 of `C4_amended` applied at the quoted raw value,
showing the quotes survive resolution. -/
theorem C4_amended_witness :
    effective_key (some "\"abc123\"") ⟨none, none, none, none⟩ = some "\"abc123\"" :=
  C4_amended.1 ⟨none, none, none, none⟩ "\"abc123\"" (by decide)

/-- C3, counterexample: with the first adapter present and its invocation
faulting ("p1fail") while a second, fully working adapter would answer
"hello from adapter 2", the call returns the first adapter's failure
message immediately — the chain does not proceed to the next adapter.
And when both imports fail, the call returns the fixed "client not
found" message, which carries no per-adapter failure reasons at all. -/
theorem C3_cex :
    call_gemini "q" (some "k") "m" 0 ⟨none, none, none, none⟩
      ⟨some ⟨true, Except.error "p1fail"⟩,
       some ⟨P2Call.hasGenerateText
         (fun _ => Except.ok (GTResp.isStr "hello from adapter 2"))⟩⟩
      = "(Gemini request failed - genai.Client().models.generate_content) p1fail"
  ∧ call_gemini "q" (some "k") "m" 0 ⟨none, none, none, none⟩
      ⟨some ⟨true, Except.error "p1fail"⟩,
       some ⟨P2Call.hasGenerateText
         (fun _ => Except.ok (GTResp.isStr "hello from adapter 2"))⟩⟩
      ≠ "hello from adapter 2"
  ∧ call_gemini "q" (some "k") "m" 0 ⟨none, none, none, none⟩ ⟨none, none⟩
      = clientNotFoundMsg := by
  refine ⟨?_, ?_, ?_⟩
  · decide
  · decide
  · decide

/-- C3 (amended): a fault during the first adapter's invocation is caught
and returned at once as that single adapter's failure message — the
remaining adapters are never attempted; only adapter *unavailability*
(import failure, or every client construction failing) makes the chain
proceed; and when every adapter is unavailable the call returns the
fixed "client not found" message, which contains no per-adapter failure
reasons.  The embedding is a total function, so no fault escapes the
call boundary. -/
theorem C3_amended :
    (∀ (q k m : String) (t : Rat) (env : Env) (e : String) (p2 : Option P2World),
      truthy (effective_key (some k) env) = true →
      call_gemini q (some k) m t env ⟨some ⟨true, Except.error e⟩, p2⟩
        = "(Gemini request failed - genai.Client().models.generate_content) " ++ e)
  ∧ (∀ (q k m : String) (t : Rat) (env : Env) (g : Except String RespShape)
        (p2 : Option P2World),
      truthy (effective_key (some k) env) = true →
      call_gemini q (some k) m t env ⟨some ⟨false, g⟩, p2⟩
        = call_gemini q (some k) m t env ⟨none, p2⟩)
  ∧ (∀ (q k m : String) (t : Rat) (env : Env),
      truthy (effective_key (some k) env) = true →
      call_gemini q (some k) m t env ⟨none, none⟩ = clientNotFoundMsg)
  ∧ (∀ (q k m : String) (t : Rat) (env : Env),
      truthy (effective_key (some k) env) = true →
      call_gemini q (some k) m t env ⟨none, some ⟨P2Call.neither⟩⟩
        = clientNotFoundMsg) := by
  refine ⟨?_, ?_, ?_, ?_⟩
  · intro q k m t env e p2 h
    simp [call_gemini, tryP1, h]
  · intro q k m t env g p2 h
    simp [call_gemini, tryP1, h]
  · intro q k m t env h
    simp [call_gemini, tryP1, tryP2, h]
  · intro q k m t env h
    simp [call_gemini, tryP1, tryP2, h]

/-- C3, witness: part 1 of `C3_amended` applied at a concrete faulting
invocation. -/
theorem C3_amended_witness :
    call_gemini "q" (some "k") "m" 0 ⟨none, none, none, none⟩
      ⟨some ⟨true, Except.error "boom"⟩, none⟩
      = "(Gemini request failed - genai.Client().models.generate_content) " ++ "boom" :=
  C3_amended.1 "q" "k" "m" 0 ⟨none, none, none, none⟩ "boom" none (by decide)

/-- C5, counterexample: no clamping — the provider call observes the raw
supplied temperature.  With an adapter whose response distinguishes the
temperature it receives, a call with temperature 3/2 (= 1.5) yields the
"raw" marker while a call with temperature 1 yields the other marker, so
1.5 is not treated as 1.0. -/
theorem C5_cex :
    call_gemini "q" (some "k") "m" (3 / 2) ⟨none, none, none, none⟩
      ⟨none, some ⟨P2Call.hasGenerateText (fun t =>
        Except.ok (GTResp.isStr
          (if t = 3 / 2 then "raw temperature observed"
           else "clamped temperature observed")))⟩⟩
      = "raw temperature observed"
  ∧ call_gemini "q" (some "k") "m" 1 ⟨none, none, none, none⟩
      ⟨none, some ⟨P2Call.hasGenerateText (fun t =>
        Except.ok (GTResp.isStr
          (if t = 3 / 2 then "raw temperature observed"
           else "clamped temperature observed")))⟩⟩
      = "clamped temperature observed"
  ∧ ("raw temperature observed" : String) ≠ "clamped temperature observed" := by
  refine ⟨?_, ?_, ?_⟩
  · simp [call_gemini, tryP1, tryP2, extractGT, truthy, effective_key, pyOr]
  · have h : (1 : Rat) ≠ 3 / 2 := by norm_num
    simp [call_gemini, tryP1, tryP2, extractGT, truthy, effective_key, pyOr, h]
  · decide

/-- C5 (amended): the caller-supplied temperature is passed to the
pattern-2 provider call unmodified (no clamping anywhere), and the
pattern-1 call does not use the temperature at all (its result is
temperature-independent).  Within the app the UI slider, not the call
path, restricts the value to [0, 1]. -/
theorem C5_amended :
    (∀ (q k m : String) (t : Rat) (env : Env) (run : Rat → Except String GTResp),
      truthy (effective_key (some k) env) = true →
      call_gemini q (some k) m t env ⟨none, some ⟨P2Call.hasGenerateText run⟩⟩
        = (match run t with
           | Except.error e => "(Gemini request failed - google.generativeai) " ++ e
           | Except.ok r => extractGT r))
  ∧ (∀ (q k m : String) (t u : Rat) (env : Env) (g : Except String RespShape)
        (p2 : Option P2World),
      truthy (effective_key (some k) env) = true →
      call_gemini q (some k) m t env ⟨some ⟨true, g⟩, p2⟩
        = call_gemini q (some k) m u env ⟨some ⟨true, g⟩, p2⟩) := by
  constructor
  · intro q k m t env run h
    simp [call_gemini, tryP1, tryP2, h]
  · intro q k m t u env g p2 h
    simp [call_gemini, tryP1, h]

/-- C5, witness: part 1 of `C5_amended` applied at temperature 3/2 with a
constant-response adapter. -/
theorem C5_amended_witness :
    call_gemini "q" (some "k") "m" (3 / 2) ⟨none, none, none, none⟩
      ⟨none, some ⟨P2Call.hasGenerateText (fun _ => Except.ok (GTResp.isStr "ok"))⟩⟩
      = "ok" :=
  (C5_amended.1 "q" "k" "m" (3 / 2) ⟨none, none, none, none⟩
    (fun _ => Except.ok (GTResp.isStr "ok")) (by decide)).trans rfl

/-- C6 (confirmed): when the resolved credential is falsy (explicit
argument absent or empty, neither environment variable truthy), the call
returns the fixed "not configured" message, and the result is
independent of the adapter world — no import, client construction or
provider invocation influences it, i.e. no adapter is attempted. -/
theorem C6_thm :
    ∀ (q : String) (api : Option String) (m : String) (t : Rat) (env : Env)
      (w w2 : World),
      truthy (effective_key api env) = false →
      call_gemini q api m t env w = notConfiguredMsg
      ∧ call_gemini q api m t env w = call_gemini q api m t env w2 := by
  intro q api m t env w w2 h
  constructor
  · simp [call_gemini, h]
  · simp [call_gemini, h]

/-- C6, witness: `C6_thm` with nothing configured, comparing a world with
no adapters to one whose first adapter would fault. -/
theorem C6_witness :
    call_gemini "q" none "m" 0 ⟨none, none, none, none⟩ ⟨none, none⟩
      = notConfiguredMsg
    ∧ call_gemini "q" none "m" 0 ⟨none, none, none, none⟩ ⟨none, none⟩
      = call_gemini "q" none "m" 0 ⟨none, none, none, none⟩
          ⟨some ⟨true, Except.error "x"⟩, none⟩ :=
  C6_thm "q" none "m" 0 ⟨none, none, none, none⟩ ⟨none, none⟩
    ⟨some ⟨true, Except.error "x"⟩, none⟩ (by decide)

/-- C9 (confirmed): when the submitted question is empty or
whitespace-only after stripping, `handle_ask` returns the session state
unchanged — no answer is produced, the history is untouched and even the
input widget value is left as it was. -/
theorem C9_thm :
    ∀ (mode api mdl : String) (t : Rat) (env : Env) (w : World)
      (s : SessionState),
      pyStrip s.user_input = "" →
      handle_ask mode api mdl t env w s = s := by
  intro mode api mdl t env w s h
  simp [handle_ask, h]

/-- C9, witness: `C9_thm` on a whitespace-only input with a non-empty
history; the state, history included, is returned unchanged. -/
theorem C9_witness :
    handle_ask "Gemini (Google)" "" "" 0 ⟨none, none, none, none⟩ ⟨none, none⟩
      ⟨[⟨"hi", "there"⟩], "   "⟩ = ⟨[⟨"hi", "there"⟩], "   "⟩ :=
  C9_thm "Gemini (Google)" "" "" 0 ⟨none, none, none, none⟩ ⟨none, none⟩
    ⟨[⟨"hi", "there"⟩], "   "⟩ (by decide)
